import Mathlib

/-!
Shallow embedding of the London property buy-vs-rent dashboard
(src/Downloads/london_property_dashboard.py).  Python float arithmetic is
modelled over the exact rationals; sliders and number inputs become
explicit parameters; the streamlit layer is out of scope.
-/

/-- The stamp-duty band table from the source: pairs of upper bound and
marginal rate, with the unbounded final band modelled as none. -/
def sdBands : List (Option ℚ × ℚ) :=
  [(some 125000, 0), (some 250000, 2/100), (some 925000, 5/100),
   (some 1500000, 10/100), (none, 12/100)]

/-- The band-walking loop of calculate_stamp_duty: if price exceeds the
band's upper bound, tax the whole band and continue with the next band;
otherwise tax the remainder above the previous bound and stop.  The
unbounded band always takes the stopping branch (price > inf is false). -/
def sdLoop (price : ℚ) : List (Option ℚ × ℚ) → ℚ → ℚ → ℚ
  | [], _, tax => tax
  | (some u, rate) :: rest, lower, tax =>
      if price > u then sdLoop price rest u (tax + (u - lower) * rate)
      else tax + (price - lower) * rate
  | (none, rate) :: _, lower, tax => tax + (price - lower) * rate

/-- calculate_stamp_duty from the source: walk the band table starting from
a lower limit of 0 and an accumulated tax of 0. -/
def calculate_stamp_duty (price : ℚ) : ℚ := sdLoop price sdBands 0 0

/-- The portion of a price falling inside the band (lo, hi], clamped at 0. -/
def bandPortion (p lo hi : ℚ) : ℚ := max 0 (min p hi - lo)

/-- Specification form of the stamp-duty schedule, following the spec's
wording: each band's portion of the price is taxed at that band's marginal
rate. -/
def stampDutySpec (p : ℚ) : ℚ :=
  0 * bandPortion p 0 125000
  + (2/100) * bandPortion p 125000 250000
  + (5/100) * bandPortion p 250000 925000
  + (10/100) * bandPortion p 925000 1500000
  + (12/100) * max 0 (p - 1500000)

lemma bandPortion_full {p lo hi : ℚ} (h : hi ≤ p) (hlo : lo ≤ hi) :
    bandPortion p lo hi = hi - lo := by
  unfold bandPortion
  rw [min_eq_right h, max_eq_right (by linarith)]

lemma bandPortion_inside {p lo hi : ℚ} (hlo : lo ≤ p) (hhi : p ≤ hi) :
    bandPortion p lo hi = p - lo := by
  unfold bandPortion
  rw [min_eq_left hhi, max_eq_right (by linarith)]

lemma bandPortion_below {p lo hi : ℚ} (h : p ≤ lo) :
    bandPortion p lo hi = 0 := by
  unfold bandPortion
  have := min_le_left p hi
  rw [max_eq_left (by linarith)]

theorem stamp_eq_spec (p : ℚ) : calculate_stamp_duty p = stampDutySpec p := by
  simp only [calculate_stamp_duty, sdBands, sdLoop]
  split_ifs with h1 h2 h3 h4
  · unfold stampDutySpec
    rw [bandPortion_full (by linarith) (by norm_num),
        bandPortion_full (by linarith) (by norm_num),
        bandPortion_full (by linarith) (by norm_num),
        bandPortion_full (by linarith) (by norm_num),
        max_eq_right (by linarith)]
    ring
  · unfold stampDutySpec
    rw [bandPortion_full (by linarith) (by norm_num),
        bandPortion_full (by linarith) (by norm_num),
        bandPortion_full (by linarith) (by norm_num),
        bandPortion_inside (by linarith) (by linarith),
        max_eq_left (by linarith)]
    ring
  · unfold stampDutySpec
    rw [bandPortion_full (by linarith) (by norm_num),
        bandPortion_full (by linarith) (by norm_num),
        bandPortion_inside (by linarith) (by linarith),
        bandPortion_below (by linarith),
        max_eq_left (by linarith)]
    ring
  · unfold stampDutySpec
    rw [bandPortion_full (by linarith) (by norm_num),
        bandPortion_inside (by linarith) (by linarith),
        bandPortion_below (by linarith),
        bandPortion_below (by linarith),
        max_eq_left (by linarith)]
    ring
  · unfold stampDutySpec
    rw [show bandPortion p 125000 250000 = 0 from bandPortion_below (by linarith),
        show bandPortion p 250000 925000 = 0 from bandPortion_below (by linarith),
        show bandPortion p 925000 1500000 = 0 from bandPortion_below (by linarith),
        show max 0 (p - 1500000) = 0 from max_eq_left (by linarith)]
    ring

/-- Interest charged in one period: the outstanding balance times the
periodic rate (interest_month in the source). -/
def interestComponent (principal monthly_rate : ℚ) : ℚ := principal * monthly_rate

/-- Principal repaid in one period: the payment minus the interest
(principal_payment in the source). -/
def principalComponent (principal monthly_rate monthly_payment : ℚ) : ℚ :=
  monthly_payment - interestComponent principal monthly_rate

/-- The amortization loop of the source.  State is (balance, cumulative
interest, periods executed); fuel is the remaining loop iterations.  Each
period charges interest, repays the rest of the payment, and stops early,
clamping the balance to 0, as soon as the balance drops to 0 or below. -/
def amortize (r P : ℚ) : ℕ → ℚ → ℚ → ℕ → ℚ × ℚ × ℕ
  | 0, b, i, k => (b, i, k)
  | f + 1, b, i, k =>
      if b - principalComponent b r P ≤ 0 then (0, i + interestComponent b r, k + 1)
      else amortize r P f (b - principalComponent b r P) (i + interestComponent b r) (k + 1)

/-- Run the amortization loop from the initial loan balance with zero
accumulated interest, for at most the given number of months. -/
def amortizeRun (L r P : ℚ) (months : ℕ) : ℚ × ℚ × ℕ := amortize r P months L 0 0

/-- Modelled from the spec: the standard annuity payment formula, the
behaviour of the external numpy_financial.pmt call (not part of this
repository) at pmt(rate, nper, -pv). -/
def pmt (rate : ℚ) (nper : ℕ) (pv : ℚ) : ℚ :=
  if rate = 0 then pv / nper
  else pv * rate * (1 + rate) ^ nper / ((1 + rate) ^ nper - 1)

/-- The balance recurrence of the loop without the clamp-at-zero test. -/
def unclampedBalance (r P : ℚ) : ℕ → ℚ → ℚ
  | 0, b => b
  | f + 1, b => unclampedBalance r P f (b - principalComponent b r P)

lemma amortize_final_cases (r P : ℚ) :
    ∀ (f : ℕ) (b i : ℚ) (k : ℕ),
      (amortize r P f b i k).1 = 0 ∨ (amortize r P f b i k).1 = unclampedBalance r P f b := by
  intro f
  induction f with
  | zero => intro b i k; exact Or.inr rfl
  | succ f ih =>
      intro b i k
      by_cases h : b - principalComponent b r P ≤ 0
      · left; simp [amortize, h]
      · have := ih (b - principalComponent b r P) (i + interestComponent b r) (k + 1)
        simpa [amortize, h, unclampedBalance] using this

lemma unclamped_closed (r P : ℚ) (hr : r ≠ 0) :
    ∀ (f : ℕ) (b : ℚ),
      unclampedBalance r P f b = b * (1 + r) ^ f - P * ((1 + r) ^ f - 1) / r := by
  intro f
  induction f with
  | zero => intro b; simp [unclampedBalance]
  | succ f ih =>
      intro b
      rw [unclampedBalance, ih]
      unfold principalComponent interestComponent
      field_simp
      ring

lemma annuity_payoff (L r : ℚ) (n : ℕ) (hr : 0 < r) (hn : 0 < n) :
    (amortizeRun L r (pmt r n L) n).1 = 0 := by
  have hpow : 1 < (1 + r) ^ n := one_lt_pow₀ (by linarith) hn.ne'
  have hden : (1 + r) ^ n - 1 ≠ 0 := by linarith
  rcases amortize_final_cases r (pmt r n L) n L 0 0 with h | h
  · exact h
  · rw [amortizeRun, h, unclamped_closed r _ hr.ne']
    rw [pmt, if_neg hr.ne']
    field_simp
    ring

lemma amortize_cum_mono (r P : ℚ) (hr : 0 ≤ r) :
    ∀ (f : ℕ) (b i : ℚ) (k : ℕ), 0 ≤ b →
      (amortize r P f b i k).2.1 ≤ (amortize r P (f + 1) b i k).2.1 := by
  intro f
  induction f with
  | zero =>
      intro b i k hb
      have him : 0 ≤ interestComponent b r := mul_nonneg hb hr
      by_cases h : b - principalComponent b r P ≤ 0 <;>
        simp [amortize, h] <;> try linarith
  | succ f ih =>
      intro b i k hb
      by_cases h : b - principalComponent b r P ≤ 0
      · simp [amortize, h]
      · have hb2 : 0 ≤ b - principalComponent b r P := le_of_lt (lt_of_not_le h)
        have := ih (b - principalComponent b r P) (i + interestComponent b r) (k + 1) hb2
        simpa [amortize, h] using this

lemma amortize_periods_le (r P : ℚ) :
    ∀ (f : ℕ) (b i : ℚ) (k : ℕ), (amortize r P f b i k).2.2 ≤ k + f := by
  intro f
  induction f with
  | zero => intro b i k; simp [amortize]
  | succ f ih =>
      intro b i k
      by_cases h : b - principalComponent b r P ≤ 0
      · simp [amortize, h]
      · have := ih (b - principalComponent b r P) (i + interestComponent b r) (k + 1)
        simp only [amortize, if_neg h]
        omega

lemma amortize_final_nonneg (r P : ℚ) :
    ∀ (f : ℕ) (b i : ℚ) (k : ℕ), 0 ≤ b → 0 ≤ (amortize r P f b i k).1 := by
  intro f
  induction f with
  | zero => intro b i k hb; simpa [amortize] using hb
  | succ f ih =>
      intro b i k hb
      by_cases h : b - principalComponent b r P ≤ 0
      · simp [amortize, h]
      · have hb2 : 0 ≤ b - principalComponent b r P := le_of_lt (lt_of_not_le h)
        have := ih (b - principalComponent b r P) (i + interestComponent b r) (k + 1) hb2
        simpa [amortize, h] using this

/-- The four market scenarios of the risk wheel.  The no-risk-scenario path
of the source sets the same defaults as the base case. -/
inductive Scenario where
  | baseCase
  | rateSpikeCrash
  | rateDropBoom
  | majorStructuralRepairs
deriving DecidableEq, Repr

/-- The if/elif chain under the risk wheel: given the selected scenario, the
base interest rate and the renovation costs, produce
(appreciation_rate_adj, risk_interest_rate, renovation_costs). -/
def applyRiskScenario (s : Scenario) (base_interest_rate renovation_costs : ℚ) :
    ℚ × ℚ × ℚ :=
  match s with
  | .baseCase => (0, base_interest_rate, renovation_costs)
  | .rateSpikeCrash => (-5, base_interest_rate + 2, renovation_costs)
  | .rateDropBoom => (3, max (1/2) (base_interest_rate - 1), renovation_costs)
  | .majorStructuralRepairs => (0, base_interest_rate, renovation_costs + 50000)

/-- The monthly update of future_value_cashflow_difference: a positive
difference is added to the balance before it compounds; otherwise the
absolute deficit is subtracted before compounding. -/
def fvStep (q fv d : ℚ) : ℚ :=
  if 0 < d then (fv + d) * (1 + q) else (fv - |d|) * (1 + q)

/-- The inner month loop of the rent calculation: state is
(future_value_cashflow_difference, total_rent_paid); each month updates the
future value from the difference monthly_payment - current_rent and adds the
current rent to the total. -/
def monthLoop (P q c : ℚ) : ℕ → ℚ × ℚ → ℚ × ℚ
  | 0, st => st
  | m + 1, st => monthLoop P q c m (fvStep q st.1 (P - c), st.2 + c)

/-- The outer year loop: twelve months at the current rent, then the rent
grows by the annual growth factor.  Returns (current_rent, (fv, total)). -/
def rentYearLoop (P q g : ℚ) : ℕ → ℚ → ℚ × ℚ → ℚ × ℚ × ℚ
  | 0, c, st => (c, st)
  | y + 1, c, st => rentYearLoop P q g y (c * (1 + g / 100)) (monthLoop P q c 12 st)

/-- Total rent paid over the horizon, starting from a zero cashflow balance
and zero rent total. -/
def totalRentPaid (P q g rent0 : ℚ) (years : ℕ) : ℚ :=
  (rentYearLoop P q g years rent0 (0, 0)).2.2

/-- Specification form of the monthly update, as a single unconditional
formula with no sign test. -/
def fvStepUncond (q fv d : ℚ) : ℚ := (fv + d) * (1 + q)

/-- Specification form of the month loop, using the unconditional update. -/
def monthLoopUncond (P q c : ℚ) : ℕ → ℚ × ℚ → ℚ × ℚ
  | 0, st => st
  | m + 1, st => monthLoopUncond P q c m (fvStepUncond q st.1 (P - c), st.2 + c)

lemma fvStep_eq_uncond (q fv d : ℚ) : fvStep q fv d = fvStepUncond q fv d := by
  unfold fvStep fvStepUncond
  split_ifs with h
  · rfl
  · rw [abs_of_nonpos (le_of_not_lt h)]
    ring

lemma monthLoop_snd (P q c : ℚ) :
    ∀ (m : ℕ) (st : ℚ × ℚ), (monthLoop P q c m st).2 = st.2 + m * c := by
  intro m
  induction m with
  | zero => intro st; simp [monthLoop]
  | succ m ih =>
      intro st
      rw [monthLoop, ih]
      push_cast
      ring

lemma rentYearLoop_total (P q g : ℚ) :
    ∀ (y : ℕ) (c : ℚ) (st : ℚ × ℚ),
      (rentYearLoop P q g y c st).2.2
        = st.2 + 12 * c * ∑ i ∈ Finset.range y, (1 + g / 100) ^ i := by
  intro y
  induction y with
  | zero => intro c st; simp [rentYearLoop]
  | succ y ih =>
      intro c st
      rw [rentYearLoop, ih, monthLoop_snd, geom_sum_succ]
      push_cast
      ring

lemma amortize_zero_or_full (r P : ℚ) :
    ∀ (f : ℕ) (b i : ℚ) (k : ℕ),
      (amortize r P f b i k).1 = 0 ∨ (amortize r P f b i k).2.2 = k + f := by
  intro f
  induction f with
  | zero => intro b i k; right; simp [amortize]
  | succ f ih =>
      intro b i k
      by_cases h : b - principalComponent b r P ≤ 0
      · left; simp [amortize, h]
      · rcases ih (b - principalComponent b r P) (i + interestComponent b r) (k + 1) with h2 | h2
        · left; simpa [amortize, h] using h2
        · right; simp only [amortize, if_neg h]; omega

/-- The parameter bundle of the dashboard.  Every field except the last is
a slider / number-input / checkbox value the source reads; the scenario
selection (random draw or manual choice) is the pre-drawn selector.  The
last field, alt_investment_return, exists in no widget of the source: it is
modelled from the spec (see its own doc comment). -/
structure Inputs where
  house_price : ℚ
  deposit : ℚ
  base_interest_rate : ℚ
  term_years : ℕ
  rent_monthly : ℚ
  rent_growth : ℚ
  remortgage_cost : ℚ
  base_transaction_fees : ℚ
  renovation_costs : ℚ
  renovation_uplift : ℚ
  annual_maintenance_rate : ℚ
  scenario : Scenario
  sale_year : ℕ
  appreciation_rate : ℚ
  sale_fee_rate : ℚ
  /-- Modelled from the spec: the alternative-investment return rate (the
  alt_investment_rate engine parameter of the spec).  The source uses the
  name alt_investment_return at the monthly_return_rate line (line 201) and
  the deposit_future_value line (line 236) but never defines it: no slider
  or assignment binds it, so every run of the script raises a NameError at
  line 201 and the rent / renter-net-worth section below that line never
  executes.  This field supplies that missing input as the spec describes
  it. -/
  alt_investment_return : ℚ

/-- The quantities the dashboard derives and displays. -/
structure DashResult where
  monthly_payment : ℚ
  stamp_duty : ℚ
  sale_value : ℚ
  sale_fees : ℚ
  principal_remaining : ℚ
  total_interest_paid : ℚ
  periods_run : ℕ
  total_mortgage_paid : ℚ
  transaction_fees : ℚ
  total_maintenance_cost : ℚ
  buying_costs : ℚ
  gross_proceeds : ℚ
  net_cash_from_sale : ℚ
  roi : ℚ
  irr_before_tax : Option ℚ
  total_rent_paid : ℚ
  average_rent_monthly : ℚ
  future_value_cashflow_difference : ℚ
  deposit_future_value : ℚ
  renter_net_worth : ℚ
  difference : ℚ

/-- The dashboard computation in source order.  The external IRR root
finder (numpy_financial.irr) is an out-of-scope collaborator and is passed
in as a function argument; the source only calls it when the deposit is
positive and otherwise reports no IRR.  Everything up to and including
irr_before_tax embeds lines the script actually executes; at the
monthly_return_rate line the script stops with a NameError on the
undefined name alt_investment_return, and from there on this definition
follows the source text of that unreachable rent / renter-net-worth
section, with the missing input supplied by the spec-modelled field
Inputs.alt_investment_return. -/
def evaluate (inp : Inputs) (irrSolve : List ℚ → ℚ) : DashResult :=
  let loan_amount := inp.house_price - inp.deposit
  let n_payments := inp.term_years * 12
  let adj := applyRiskScenario inp.scenario inp.base_interest_rate inp.renovation_costs
  let appreciation_rate_adj := adj.1
  let risk_interest_rate := adj.2.1
  let renovation_costs := adj.2.2
  let monthly_rate := risk_interest_rate / 100 / 12
  let monthly_payment := if 0 < loan_amount then pmt monthly_rate n_payments loan_amount else 0
  let stamp_duty := calculate_stamp_duty inp.house_price
  let annual_maintenance_cost := inp.house_price * (inp.annual_maintenance_rate / 100)
  let adjusted_appreciation_rate := inp.appreciation_rate + appreciation_rate_adj
  let sale_value :=
    inp.house_price * (1 + adjusted_appreciation_rate / 100) ^ inp.sale_year
      * (1 + inp.renovation_uplift / 100)
  let sale_fees := sale_value * (inp.sale_fee_rate / 100)
  let months := min (inp.sale_year * 12) n_payments
  let amort := amortizeRun loan_amount monthly_rate monthly_payment months
  let principal_remaining := amort.1
  let total_interest_paid := amort.2.1
  let total_mortgage_paid := monthly_payment * (months : ℚ)
  let actual_remortgages := (inp.sale_year - 1) / 5
  let total_remortgage_costs := (actual_remortgages : ℚ) * inp.remortgage_cost
  let transaction_fees := inp.base_transaction_fees + total_remortgage_costs
  let total_maintenance_cost := annual_maintenance_cost * (inp.sale_year : ℚ)
  let buying_costs :=
    stamp_duty + renovation_costs + transaction_fees + total_maintenance_cost
      + total_interest_paid
  let gross_proceeds := sale_value - sale_fees - principal_remaining
  let net_cash_from_sale :=
    gross_proceeds - (stamp_duty + renovation_costs + transaction_fees + total_maintenance_cost)
  let roi := if 0 < inp.deposit then (net_cash_from_sale - inp.deposit) / inp.deposit else 0
  let irr_before_tax :=
    if 0 < inp.deposit then
      some (irrSolve ((-inp.deposit - (buying_costs - total_interest_paid))
        :: (List.replicate (inp.sale_year - 1) 0 ++ [gross_proceeds])))
    else none
  let monthly_return_rate := inp.alt_investment_return / 100 / 12
  let rents := rentYearLoop monthly_payment monthly_return_rate inp.rent_growth
    inp.sale_year inp.rent_monthly (0, 0)
  let future_value_cashflow_difference := rents.2.1
  let total_rent_paid := rents.2.2
  let average_rent_monthly := total_rent_paid / ((inp.sale_year : ℚ) * 12)
  let deposit_future_value :=
    inp.deposit * (1 + inp.alt_investment_return / 100) ^ inp.sale_year
  let renter_net_worth := deposit_future_value + future_value_cashflow_difference
  let difference := net_cash_from_sale - renter_net_worth
  { monthly_payment := monthly_payment
    stamp_duty := stamp_duty
    sale_value := sale_value
    sale_fees := sale_fees
    principal_remaining := principal_remaining
    total_interest_paid := total_interest_paid
    periods_run := amort.2.2
    total_mortgage_paid := total_mortgage_paid
    transaction_fees := transaction_fees
    total_maintenance_cost := total_maintenance_cost
    buying_costs := buying_costs
    gross_proceeds := gross_proceeds
    net_cash_from_sale := net_cash_from_sale
    roi := roi
    irr_before_tax := irr_before_tax
    total_rent_paid := total_rent_paid
    average_rent_monthly := average_rent_monthly
    future_value_cashflow_difference := future_value_cashflow_difference
    deposit_future_value := deposit_future_value
    renter_net_worth := renter_net_worth
    difference := difference }

/-- A small concrete parameter bundle used to instantiate theorems with
hypotheses: a 2-pound house with a 1-pound deposit, a nominal 1200 percent
annual rate (monthly rate exactly 1), a one-year loan sold after one year. -/
def sampleInputs : Inputs where
  house_price := 2
  deposit := 1
  base_interest_rate := 1200
  term_years := 1
  rent_monthly := 1
  rent_growth := 0
  remortgage_cost := 0
  base_transaction_fees := 0
  renovation_costs := 0
  renovation_uplift := 0
  annual_maintenance_rate := 0
  scenario := .baseCase
  sale_year := 1
  appreciation_rate := 0
  sale_fee_rate := 0
  alt_investment_return := 0

/-- The same bundle with a zero deposit. -/
def sampleInputs0 : Inputs := { sampleInputs with deposit := 0 }

/-- C2: calculate_stamp_duty applies the marginal band table (125,000 @ 0%),
(250,000 @ 2%), (925,000 @ 5%), (1,500,000 @ 10%), (∞ @ 12%), taxing each
band's portion of the price at its marginal rate and stopping once the price
is consumed; in particular it returns exactly 20,000 for a price of 600,000. -/
theorem claim2_stamp_duty_bands :
    (∀ p : ℚ, calculate_stamp_duty p = stampDutySpec p)
    ∧ calculate_stamp_duty 600000 = 20000 := by
  refine ⟨stamp_eq_spec, ?_⟩
  rw [stamp_eq_spec]
  rw [stampDutySpec,
      show bandPortion 600000 0 125000 = 125000 - 0 from
        bandPortion_full (by norm_num) (by norm_num),
      show bandPortion 600000 125000 250000 = 250000 - 125000 from
        bandPortion_full (by norm_num) (by norm_num),
      show bandPortion 600000 250000 925000 = 600000 - 250000 from
        bandPortion_inside (by norm_num) (by norm_num),
      show bandPortion 600000 925000 1500000 = 0 from bandPortion_below (by norm_num),
      show max 0 ((600000 : ℚ) - 1500000) = 0 from max_eq_left (by norm_num)]
  norm_num

/-- C9: calculate_stamp_duty is monotonically non-decreasing in price, and it
returns 0 for every price at most 125,000, including non-positive prices. -/
theorem claim9_stamp_duty_monotone :
    (∀ p1 p2 : ℚ, p1 ≤ p2 → calculate_stamp_duty p1 ≤ calculate_stamp_duty p2)
    ∧ (∀ p : ℚ, p ≤ 125000 → calculate_stamp_duty p = 0) := by
  constructor
  · intro p1 p2 h
    rw [stamp_eq_spec, stamp_eq_spec]
    unfold stampDutySpec bandPortion
    gcongr
  · intro p hp
    rw [stamp_eq_spec]
    unfold stampDutySpec
    rw [show bandPortion p 125000 250000 = 0 from bandPortion_below (by linarith),
        show bandPortion p 250000 925000 = 0 from bandPortion_below (by linarith),
        show bandPortion p 925000 1500000 = 0 from bandPortion_below (by linarith),
        show max 0 (p - 1500000) = 0 from max_eq_left (by linarith)]
    ring

/-- Witness for C9 at concrete prices. -/
theorem claim9_witness :
    calculate_stamp_duty 100000 ≤ calculate_stamp_duty 600000
    ∧ calculate_stamp_duty 60000 = 0 :=
  ⟨claim9_stamp_duty_monotone.1 100000 600000 (by norm_num),
   claim9_stamp_duty_monotone.2 60000 (by norm_num)⟩

/-- C3: the scenario adjuster is a pure mapping from the selected scenario:
the base case leaves everything unchanged, the rate-spike crash lowers
appreciation by 5 and raises the rate by 2, the rate-drop boom raises
appreciation by 3 and lowers the rate by 1 floored at 0.5, and structural
repairs add 50,000 to renovation costs; the spike-crash and base outcomes
differ in both adjusted appreciation and rate. -/
theorem claim3_scenario_adjuster (b c : ℚ) :
    applyRiskScenario .baseCase b c = (0, b, c)
    ∧ applyRiskScenario .rateSpikeCrash b c = (-5, b + 2, c)
    ∧ applyRiskScenario .rateDropBoom b c = (3, max (1/2) (b - 1), c)
    ∧ applyRiskScenario .majorStructuralRepairs b c = (0, b, c + 50000)
    ∧ (applyRiskScenario .rateSpikeCrash b c).1 ≠ (applyRiskScenario .baseCase b c).1
    ∧ (applyRiskScenario .rateSpikeCrash b c).2.1 ≠ (applyRiskScenario .baseCase b c).2.1 := by
  refine ⟨rfl, rfl, rfl, rfl, by norm_num [applyRiskScenario], ?_⟩
  show b + 2 ≠ b
  intro h2
  linarith

/-- C10: the positive-surplus branch and the negative-deficit branch of the
monthly cashflow update compute the same value, so the two-branch update
equals the single unconditional formula, both per step and over the whole
month loop. -/
theorem claim10_branch_equivalence :
    (∀ q fv d : ℚ, fvStep q fv d = fvStepUncond q fv d)
    ∧ (∀ (P q c : ℚ) (m : ℕ) (st : ℚ × ℚ),
        monthLoop P q c m st = monthLoopUncond P q c m st) := by
  refine ⟨fvStep_eq_uncond, ?_⟩
  intro P q c m
  induction m with
  | zero => intro st; rfl
  | succ m ih =>
      intro st
      rw [monthLoop, monthLoopUncond, fvStep_eq_uncond]
      exact ih _

/-- C7: the rent projection accumulates twelve months of rent per year and
grows the rent once per year, so the total is the geometric-series formula;
with zero growth the total is exactly monthly rent times 12 times the
horizon, and the displayed average monthly rent is the total divided by the
number of months.  The rent loop this embeds (source lines 206 to 233) is
text the script never reaches: the NameError at line 201 on the undefined
alt_investment_return aborts the run first, so these values hold of the
modelled computation while the program itself never produces them. -/
theorem claim7_rent_projection (rent0 g P q : ℚ) (years : ℕ) :
    totalRentPaid P q g rent0 years
      = rent0 * 12 * ∑ i ∈ Finset.range years, (1 + g / 100) ^ i
    ∧ totalRentPaid P q 0 rent0 years = rent0 * 12 * years
    ∧ (∀ (inp : Inputs) (irrS : List ℚ → ℚ),
        (evaluate inp irrS).average_rent_monthly
          = (evaluate inp irrS).total_rent_paid / ((inp.sale_year : ℚ) * 12)) := by
  refine ⟨?_, ?_, fun inp irrS => rfl⟩
  · rw [totalRentPaid, rentYearLoop_total]
    ring
  · rw [totalRentPaid, rentYearLoop_total]
    have hs : ∑ i ∈ Finset.range years, ((1 : ℚ) + 0 / 100) ^ i = years := by simp
    rw [hs]
    ring

/-- C8: the renter's net worth is the lump-sum deposit compounding plus the
future value of the monthly cash-flow differential, where each month a
positive surplus is added to the balance before it compounds, a deficit is
subtracted as an absolute value before it compounds, and the running
balance can go negative.  The renter-net-worth section this embeds (source
lines 206 to 239) is text the script never reaches: the monthly-equivalent
alternative rate is built from the undefined name alt_investment_return,
so the run dies with a NameError at line 201 and these values hold of the
modelled computation while the program itself never produces them. -/
theorem claim8_renter_net_worth (inp : Inputs) (irrS : List ℚ → ℚ) :
    (evaluate inp irrS).renter_net_worth
      = inp.deposit * (1 + inp.alt_investment_return / 100) ^ inp.sale_year
        + (evaluate inp irrS).future_value_cashflow_difference
    ∧ (∀ q2 fv d : ℚ, 0 < d → fvStep q2 fv d = (fv + d) * (1 + q2))
    ∧ (∀ q2 fv d : ℚ, d ≤ 0 → fvStep q2 fv d = (fv - |d|) * (1 + q2))
    ∧ (monthLoop 0 0 1 1 (0, 0)).1 < 0 := by
  refine ⟨rfl, ?_, ?_, ?_⟩
  · intro q2 fv d hd
    rw [fvStep, if_pos hd]
  · intro q2 fv d hd
    rw [fvStep, if_neg (not_lt.mpr hd)]
  · show (monthLoop 0 0 1 0 (fvStep 0 (0 : ℚ) (0 - 1), (0 : ℚ) + 1)).1 < 0
    rw [monthLoop]
    show fvStep 0 (0 : ℚ) (0 - 1) < 0
    rw [fvStep]
    norm_num

/-- Witness for C8 at concrete step inputs. -/
theorem claim8_witness :
    fvStep 3 5 2 = (5 + 2) * (1 + 3)
    ∧ fvStep 3 5 (-2) = (5 - |(-2 : ℚ)|) * (1 + 3) :=
  ⟨(claim8_renter_net_worth sampleInputs (fun _ => 0)).2.1 3 5 2 (by norm_num),
   (claim8_renter_net_worth sampleInputs (fun _ => 0)).2.2.1 3 5 (-2) (by norm_num)⟩

/-- C1: in the amortization loop, the interest component plus the principal
component equals the monthly payment in every period; cumulative interest
paid is monotonically non-decreasing over periods; and with the standard
annuity payment over n periods at the same rate the remaining principal
reaches exactly 0 at or before n periods. -/
theorem claim1_amortization_invariants (L r P : ℚ) (n : ℕ)
    (hL : 0 ≤ L) (hr : 0 < r) (hn : 0 < n) :
    (∀ b : ℚ, interestComponent b r + principalComponent b r P = P)
    ∧ (∀ j : ℕ, (amortizeRun L r P j).2.1 ≤ (amortizeRun L r P (j + 1)).2.1)
    ∧ (amortizeRun L r (pmt r n L) n).1 = 0
    ∧ (amortizeRun L r (pmt r n L) n).2.2 ≤ n := by
  refine ⟨?_, ?_, annuity_payoff L r n hr hn, ?_⟩
  · intro b
    unfold principalComponent
    ring
  · intro j
    exact amortize_cum_mono r P hr.le j L 0 0 hL
  · simpa using amortize_periods_le r (pmt r n L) n L 0 0

/-- Witness for C1 at concrete inputs. -/
theorem claim1_witness :
    interestComponent 5 1 + principalComponent 5 1 3 = 3
    ∧ (amortizeRun 1 1 3 0).2.1 ≤ (amortizeRun 1 1 3 1).2.1
    ∧ (amortizeRun 1 1 (pmt 1 1 1) 1).1 = 0 :=
  ⟨(claim1_amortization_invariants 1 1 3 1 (by norm_num) (by norm_num) (by norm_num)).1 5,
   (claim1_amortization_invariants 1 1 3 1 (by norm_num) (by norm_num) (by norm_num)).2.1 0,
   (claim1_amortization_invariants 1 1 3 1 (by norm_num) (by norm_num) (by norm_num)).2.2.1⟩

/-- C5: the amortization loop always terminates within
min(sale_year × 12, term_years × 12) iterations, which is at most 600 under
the slider bound sale_year ≤ 50; the final balance is never negative; the
loop either paid off (balance exactly 0) or ran the full horizon; and a
horizon at least as long as the term with the annuity payment ends at a
fully paid-off loan. -/
theorem claim5_loop_termination (L r P : ℚ) (sy ty : ℕ)
    (hL : 0 ≤ L) (hsy : sy ≤ 50) (hr : 0 < r) (hty : 0 < ty) :
    (amortizeRun L r P (min (sy * 12) (ty * 12))).2.2 ≤ min (sy * 12) (ty * 12)
    ∧ min (sy * 12) (ty * 12) ≤ 600
    ∧ 0 ≤ (amortizeRun L r P (min (sy * 12) (ty * 12))).1
    ∧ ((amortizeRun L r P (min (sy * 12) (ty * 12))).1 = 0
        ∨ (amortizeRun L r P (min (sy * 12) (ty * 12))).2.2 = min (sy * 12) (ty * 12))
    ∧ (ty ≤ sy →
        (amortizeRun L r (pmt r (ty * 12) L) (min (sy * 12) (ty * 12))).1 = 0) := by
  refine ⟨?_, ?_, ?_, ?_, ?_⟩
  · simpa using amortize_periods_le r P (min (sy * 12) (ty * 12)) L 0 0
  · have h1 : min (sy * 12) (ty * 12) ≤ sy * 12 := min_le_left _ _
    omega
  · exact amortize_final_nonneg r P _ L 0 0 hL
  · simpa using amortize_zero_or_full r P (min (sy * 12) (ty * 12)) L 0 0
  · intro h
    rw [min_eq_right (by omega : ty * 12 ≤ sy * 12)]
    exact annuity_payoff L r (ty * 12) hr (by omega)

/-- Witness for C5 at concrete inputs. -/
theorem claim5_witness :
    (amortizeRun 1 1 3 (min (1 * 12) (1 * 12))).2.2 ≤ min (1 * 12) (1 * 12)
    ∧ (amortizeRun 1 1 (pmt 1 (1 * 12) 1) (min (1 * 12) (1 * 12))).1 = 0 :=
  ⟨(claim5_loop_termination 1 1 3 1 1 (by norm_num) (by norm_num) (by norm_num)
      (by norm_num)).1,
   (claim5_loop_termination 1 1 3 1 1 (by norm_num) (by norm_num) (by norm_num)
      (by norm_num)).2.2.2.2 (le_refl 1)⟩

/-- C4: the sale outcome of the dashboard: sale_value is the house price
compounded at the adjusted appreciation rate over the holding years times
the renovation uplift factor; sale_fees are the fee share of the sale
value; and gross_proceeds subtract the fees and the loan balance remaining
after amortizing up to the sale period, which differs from the initial
loan amount (shown at a concrete input). -/
theorem claim4_sale_outcome (inp : Inputs) (irrS : List ℚ → ℚ) :
    (evaluate inp irrS).sale_value
      = inp.house_price
          * (1 + (inp.appreciation_rate
              + (applyRiskScenario inp.scenario inp.base_interest_rate
                  inp.renovation_costs).1) / 100) ^ inp.sale_year
          * (1 + inp.renovation_uplift / 100)
    ∧ (evaluate inp irrS).sale_fees
        = (evaluate inp irrS).sale_value * (inp.sale_fee_rate / 100)
    ∧ (evaluate inp irrS).gross_proceeds
        = (evaluate inp irrS).sale_value - (evaluate inp irrS).sale_fees
          - (evaluate inp irrS).principal_remaining
    ∧ (evaluate inp irrS).principal_remaining
        = (amortizeRun (inp.house_price - inp.deposit)
            ((applyRiskScenario inp.scenario inp.base_interest_rate
                inp.renovation_costs).2.1 / 100 / 12)
            ((evaluate inp irrS).monthly_payment)
            (min (inp.sale_year * 12) (inp.term_years * 12))).1
    ∧ (evaluate sampleInputs (fun _ => 0)).principal_remaining
        ≠ sampleInputs.house_price - sampleInputs.deposit := by
  refine ⟨rfl, rfl, rfl, rfl, ?_⟩
  have hpm : (evaluate sampleInputs (fun _ => 0)).principal_remaining
      = (amortizeRun 1 1 (pmt 1 12 1) 12).1 := by
    norm_num [evaluate, sampleInputs, applyRiskScenario]
  rw [hpm, annuity_payoff 1 1 12 (by norm_num) (by norm_num)]
  norm_num [sampleInputs]

/-- C6: with a zero deposit the computation returns a full result: the IRR
is reported as the not-applicable value none instead of being computed,
while the sale value, the total rent paid, and the amortization figures
(cumulative interest and remaining principal) are still the fully computed
component values.  This is the intended behaviour the spec describes, and
it holds of the evaluation with the spec-modelled alternative-investment
input; the script as written does raise an error on every run, zero
deposit included: a NameError at line 201 on the undefined name
alt_investment_return, before total_rent_paid is computed. -/
theorem claim6_zero_deposit (inp : Inputs) (irrS : List ℚ → ℚ)
    (h : inp.deposit = 0) :
    (evaluate inp irrS).irr_before_tax = none
    ∧ (evaluate inp irrS).sale_value
        = inp.house_price
            * (1 + (inp.appreciation_rate
                + (applyRiskScenario inp.scenario inp.base_interest_rate
                    inp.renovation_costs).1) / 100) ^ inp.sale_year
            * (1 + inp.renovation_uplift / 100)
    ∧ (evaluate inp irrS).total_rent_paid
        = totalRentPaid ((evaluate inp irrS).monthly_payment)
            (inp.alt_investment_return / 100 / 12) inp.rent_growth
            inp.rent_monthly inp.sale_year
    ∧ (evaluate inp irrS).total_interest_paid
        = (amortizeRun (inp.house_price - inp.deposit)
            ((applyRiskScenario inp.scenario inp.base_interest_rate
                inp.renovation_costs).2.1 / 100 / 12)
            ((evaluate inp irrS).monthly_payment)
            (min (inp.sale_year * 12) (inp.term_years * 12))).2.1
    ∧ (evaluate inp irrS).principal_remaining
        = (amortizeRun (inp.house_price - inp.deposit)
            ((applyRiskScenario inp.scenario inp.base_interest_rate
                inp.renovation_costs).2.1 / 100 / 12)
            ((evaluate inp irrS).monthly_payment)
            (min (inp.sale_year * 12) (inp.term_years * 12))).1 := by
  have hd : ¬ (0 : ℚ) < inp.deposit := by
    rw [h]
    exact lt_irrefl 0
  refine ⟨?_, rfl, rfl, rfl, rfl⟩
  dsimp only [evaluate]
  rw [if_neg hd]

/-- Witness for C6: the zero-deposit sample input yields no IRR. -/
theorem claim6_witness :
    (evaluate sampleInputs0 (fun _ => 0)).irr_before_tax = none :=
  (claim6_zero_deposit sampleInputs0 (fun _ => 0) rfl).1
